import Mathlib

/-!
A verification development for the duty computation engine of the
XtraCare pipeline (`test_icegate_fastapi.py`).

Modelling conventions for the shallow embedding:
* Python's dynamically typed JSON payload values are modelled by `PyVal`
  (Python int and float are idealised together as exact rationals, so
  binary floating point representation effects are outside the model);
* Python dicts are association lists looked up on the first matching key;
* an uncaught Python exception is modelled as `Except.error ()`;
* `round` is round-half-to-even on exact rationals.
-/

set_option maxRecDepth 8000

attribute [local semireducible] Rat.mul Rat.add Rat.inv Rat.sub

deriving instance DecidableEq for Except

namespace IcegateDuty

/-- Python str.strip (whitespace from both ends), structurally on the
character list so that concrete runs evaluate in the kernel. -/
def trimChars (l : List Char) : List Char :=
  ((l.dropWhile Char.isWhitespace).reverse.dropWhile Char.isWhitespace).reverse

/-- Python str.strip on a string. -/
def pyStrip (s : String) : String := ⟨trimChars s.data⟩

/-- Python str.upper (ASCII). -/
def pyUpper (s : String) : String := ⟨s.data.map Char.toUpper⟩

/-- Python str.lower (ASCII). -/
def pyLower (s : String) : String := ⟨s.data.map Char.toLower⟩

/-- Split a character list on every occurrence of a separator character
(the semantics of str.split with a one-character separator: the empty
list of characters splits to one empty field). -/
def splitOnChar (sep : Char) : List Char → List (List Char)
  | [] => [[]]
  | c :: rest =>
      let r := splitOnChar sep rest
      if c = sep then [] :: r
      else
        match r with
        | [] => [[c]]
        | h :: t => (c :: h) :: t

/-- Join character lists with a separator character (inverse of
`splitOnChar`, used to rebuild the tail of a one-split). -/
def joinSep (sep : Char) : List (List Char) → List Char
  | [] => []
  | [x] => x
  | x :: xs => x ++ sep :: joinSep sep xs

/-- A dynamically typed payload value: a Python number, a string, or None. -/
inductive PyVal where
  | num (q : ℚ)
  | str (s : String)
  | none
deriving DecidableEq

/-- A Python dict of payload values, as an association list; lookup
returns the value bound to the first matching key. -/
abbrev Dict := List (String × PyVal)

/-- Python `d.get(k, dflt)`. -/
def dget (d : Dict) (k : String) (dflt : PyVal) : PyVal :=
  (List.lookup k d).getD dflt

/-- Python `d.get(k)` (default None). -/
def dgetOpt (d : Dict) (k : String) : PyVal :=
  dget d k PyVal.none

/-- Python dict merge of line 230: the second payload's keys win on
collision, so its bindings are placed first for first-match lookup. -/
def dmerge (d1 d2 : Dict) : Dict := d2 ++ d1

/-- Python truthiness of a payload value. -/
def pyTruthy : PyVal → Bool
  | .num q => decide (q ≠ 0)
  | .str s => decide (s ≠ "")
  | .none => false

/-- Python `a or b`. -/
def pyOr (a b : PyVal) : PyVal := if pyTruthy a then a else b

/-- Python `isinstance(v, (int, float))`. -/
def PyVal.isNum : PyVal → Bool
  | .num _ => true
  | _ => false

/-- Using a payload value where Python needs a number; anything else
makes the surrounding expression raise, modelled as `Except.error`. -/
def toQ : PyVal → Except Unit ℚ
  | .num q => .ok q
  | _ => .error ()

/-- Python `base * rate / 100` for a numeric base and a payload rate:
a non-numeric rate makes the expression raise (a string rate yields a
string product or a TypeError, and the division then always raises). -/
def qMulDiv100 (base : ℚ) (rate : PyVal) : Except Unit ℚ :=
  match rate with
  | .num r => .ok (base * r / 100)
  | _ => .error ()

/-- Python `a * v` for a float `a` and a payload value `v`. -/
def qMulPy (a : ℚ) (v : PyVal) : Except Unit ℚ :=
  match v with
  | .num q => .ok (a * q)
  | _ => .error ()

/-- Python str() of a payload value as used in f-strings (the rendering
of numbers is idealised; the claims only apply it to strings). -/
def pyStr : PyVal → String
  | .num q => toString q
  | .str s => s
  | .none => "None"

/-- Python `v == s` for a payload value and a string: only equal
strings compare equal; numbers and None never equal a string. -/
def pyEqStr (v : PyVal) (s : String) : Bool :=
  match v with
  | .str t => t == s
  | _ => false

/-- Value of a list of decimal digit characters. -/
def natOfDigits (l : List Char) : ℕ :=
  l.foldl (fun acc c => acc * 10 + (c.toNat - 48)) 0

/-- Decimal mantissa accepted by Python float(): digits with at most one
decimal point and at least one digit overall. -/
def parseMantissa (t : List Char) : Option ℚ :=
  match splitOnChar '.' t with
  | [ip] =>
      if !ip.isEmpty && ip.all Char.isDigit then
        some (natOfDigits ip : ℚ)
      else Option.none
  | [ip, fp] =>
      if (!ip.isEmpty || !fp.isEmpty) && ip.all Char.isDigit
          && fp.all Char.isDigit then
        some ((natOfDigits ip : ℚ) + (natOfDigits fp : ℚ) / 10 ^ fp.length)
      else Option.none
  | _ => Option.none

/-- Mantissa with an optional leading sign. -/
def parseSigned (t : List Char) : Option ℚ :=
  match t with
  | '-' :: rest => (parseMantissa rest).map (fun q => -q)
  | '+' :: rest => parseMantissa rest
  | _ => parseMantissa t

/-- A decimal integer with an optional sign (the exponent of a float
literal). -/
def parseIntChars (t : List Char) : Option ℤ :=
  match t with
  | '-' :: rest =>
      if !rest.isEmpty && rest.all Char.isDigit then
        some (-(natOfDigits rest : ℤ))
      else Option.none
  | '+' :: rest =>
      if !rest.isEmpty && rest.all Char.isDigit then
        some ((natOfDigits rest : ℤ))
      else Option.none
  | l =>
      if !l.isEmpty && l.all Char.isDigit then
        some ((natOfDigits l : ℤ))
      else Option.none

/-- Python float() on a string: strip whitespace, optional sign, decimal
digits with optional point and optional exponent (inf/nan and underscore
grouping are outside the model; the claims use plainly numeric or plainly
non-numeric strings). -/
def parseFloat (s : String) : Option ℚ :=
  let t := (pyLower (pyStrip s)).data
  match splitOnChar 'e' t with
  | [m] => parseSigned m
  | [m, ex] =>
      match parseSigned m, parseIntChars ex with
      | some mv, some ev => some (mv * (10 : ℚ) ^ ev)
      | _, _ => Option.none
  | _ => Option.none

/-- Lines 246-249: `float(cess_spec) if cess_spec else 0` guarded by
`try/except (TypeError, ValueError)` substituting 0.  Total. -/
def coerceCess (v : PyVal) : ℚ :=
  if pyTruthy v then
    match v with
    | .num q => q
    | .str s => (parseFloat s).getD 0
    | .none => 0
  else 0

/-- Python round() to an integer: round half to even, idealised on exact
rationals. -/
def roundHalfEven (q : ℚ) : ℤ :=
  let f := q.floor
  let r := q - (f : ℚ)
  if r < 1 / 2 then f
  else if 1 / 2 < r then f + 1
  else if f % 2 = 0 then f else f + 1

/-- Python round(q, n). -/
def roundTo (n : ℕ) (q : ℚ) : ℚ :=
  (roundHalfEven (q * 10 ^ n) : ℚ) / 10 ^ n

/-- The match test of the scan in calculate_bcd_rate_with_notification,
line 185: `item.get("notn") == notn and (slno is None or
item.get("slno") == slno)`. -/
def bcdMatch (n : String) (slno : Option String) (item : Dict) : Bool :=
  pyEqStr (dgetOpt item "notn") n &&
    (match slno with
     | Option.none => true
     | some s => pyEqStr (dgetOpt item "slno") s)

/-- Lines 181-191: optional notification override of the BCD rate.  The
table is the `rs_bcdd` list of the third upstream payload; the result is
the effective rate together with the display label (a raw payload value,
since the Python code can return `item.get("notn")` unchanged). -/
def calculate_bcd_rate_with_notification (table : List Dict)
    (notn slno : Option String) (bcd_rate : PyVal) : PyVal × PyVal :=
  match notn with
  | Option.none => (bcd_rate, .str "")
  | some n =>
    if n = "" then (bcd_rate, .str "")
    else
      match table.find? (bcdMatch n slno) with
      | Option.none => (bcd_rate, .str "")
      | some item =>
          let rta := dgetOpt item "rta"
          let eff := if rta.isNum then rta else bcd_rate
          let disp :=
            if pyTruthy (dgetOpt item "slno") then
              PyVal.str (pyStr (dgetOpt item "notn") ++ "-" ++ pyStr (dgetOpt item "slno"))
            else dgetOpt item "notn"
          (eff, disp)

/-- Lines 177-179: IGST notification label. -/
def show_igst_notification_SL_no (data : Dict) : PyVal :=
  let notn := dgetOpt data "igst_notn"
  let slno := dgetOpt data "igst_slno"
  if pyTruthy notn && pyTruthy slno then
    .str (pyStr notn ++ "-" ++ pyStr slno)
  else pyOr notn (pyOr slno (.str ""))

/-- Lines 193-216: the aggregate effective tariff rate.  A non-numeric
assessable value or rate field makes the Python arithmetic raise, so the
result is in `Except`; the final division is guarded by the truthiness of
the assessable value. -/
def calculate_total_effective_tariff_rate (data : Dict)
    (assessable_value : PyVal) (override_bcd_rate : Option PyVal) : Except Unit ℚ :=
  let bcd := match override_bcd_rate with
             | some r => r
             | Option.none => dget data "bcd_rate" (.num 0)
  let aidc := dget data "aidc_rate" (.num 0)
  let cessr := dget data "cess_rate" (.num 0)
  let chcess := dget data "chess_rate" (.num 0)
  let adc := dget data "adc_rate" (.num 0)
  let sws := dget data "scd_rate" (.num 0)
  let igst := dget data "igst_rate" (.num 0)
  let cc := dget data "gstcess_rate" (.num 0)
  match toQ assessable_value with
  | .error e => .error e
  | .ok avq =>
  match qMulDiv100 avq bcd with
  | .error e => .error e
  | .ok b =>
  match qMulDiv100 b aidc with
  | .error e => .error e
  | .ok a =>
  match qMulDiv100 avq cessr with
  | .error e => .error e
  | .ok c =>
  match qMulDiv100 avq chcess with
  | .error e => .error e
  | .ok ch =>
  match qMulDiv100 avq adc with
  | .error e => .error e
  | .ok ea =>
  match qMulDiv100 (b + a + c + ch + ea) sws with
  | .error e => .error e
  | .ok sw =>
  match qMulDiv100 (avq + b + a + c + sw) igst with
  | .error e => .error e
  | .ok ig =>
  match qMulDiv100 avq cc with
  | .error e => .error e
  | .ok g =>
    .ok (roundTo 3 (if avq ≠ 0 then (b + a + c + ch + ea + sw + ig + g) / avq * 100 else 0))

/-- Lines 218-219: the aggregate tariff rate is the effective one with
the tariff-declared BCD rate as override. -/
def calculate_total_tariff_rate (data : Dict) (assessable_value : PyVal) :
    Except Unit ℚ :=
  calculate_total_effective_tariff_rate data assessable_value
    (some (dget data "bcd_rate" (.num 0)))

/-- Line 223: `assessable_value or 100000`. -/
def defaultAV (v : PyVal) : PyVal := if pyTruthy v then v else .num 100000

/-- Line 224: `quantity or 1`. -/
def defaultQty (v : PyVal) : PyVal := if pyTruthy v then v else .num 1

/-- The six amounts of the line-item duty cascade. -/
structure Amounts where
  bcd : ℚ
  aidc : ℚ
  cess : ℚ
  sws : ℚ
  igst : ℚ
  cc : ℚ
deriving DecidableEq

/-- Lines 252-258: the line-item duty cascade, in the source's strict
dependency order; the cess branch is Python truthiness of the coerced
specific amount. -/
def cascadeAmounts (av : ℚ)
    (bcd_eff aidc_rate cess_rate sws_rate igst_rate cc_rate : PyVal)
    (cess_spec_val : ℚ) (qty : PyVal) : Except Unit Amounts :=
  match qMulDiv100 av bcd_eff with
  | .error e => .error e
  | .ok b =>
  match qMulDiv100 b aidc_rate with
  | .error e => .error e
  | .ok a =>
  match (if cess_spec_val ≠ 0 then qMulPy cess_spec_val qty
         else qMulDiv100 av cess_rate) with
  | .error e => .error e
  | .ok c =>
  match qMulDiv100 (b + a + c) sws_rate with
  | .error e => .error e
  | .ok sw =>
  match qMulDiv100 (av + b + a + c + sw) igst_rate with
  | .error e => .error e
  | .ok ig =>
  match qMulDiv100 av cc_rate with
  | .error e => .error e
  | .ok g => .ok ⟨b, a, c, sw, ig, g⟩

/-- One row of the output table (fixed column names of the source). -/
structure Row where
  customsDuty : String
  tariffRate : PyVal
  specDuty : PyVal
  unit : PyVal
  notifSlno : PyVal
  effectiveRate : PyVal
  specDuty1 : PyVal
  unit1 : PyVal
  dutyAmount : ℚ
deriving DecidableEq

/-- The final structure of lines 372-383: metadata, the 8 rows, and the
totals row. -/
structure DutyResult where
  cth : String
  country : Option String
  assessableValue : PyVal
  quantity : PyVal
  rows : List Row
  totalRow : Row
deriving DecidableEq

/-- Lines 221-384: the engine.  The three upstream payloads are passed in
already parsed (the fetch layer is external per the spec); `rs_bcdd` is
the notification table of the third payload.  Any uncaught Python
exception is `Except.error ()`. -/
def build_json_for_calculated_values (cth_code : String)
    (assessable_value quantity : PyVal)
    (selected_bcd_notn selected_bcd_slno : Option String)
    (country : Option String)
    (rate_of_tariff_data rate_of_effective_data : Dict)
    (rs_bcdd : List Dict) : Except Unit DutyResult :=
  let av := defaultAV assessable_value
  let qty := defaultQty quantity
  let data := dmerge rate_of_tariff_data rate_of_effective_data
  let bcd_tariff_rate := dget data "bcd_rate" (.num 0)
  let aidc_rate := dget data "aidc_rate" (.num 0)
  let cess_rate := dget data "cess_rate" (.num 0)
  let cess_spec := dget data "cess_spc_amts" (.num 0)
  let sws_rate := dget data "scd_rate" (.num 0)
  let igst_rate := dget data "igst_rate" (.num 0)
  let cc_rate := dget data "gstcess_rate" (.num 0)
  let bcdres := calculate_bcd_rate_with_notification rs_bcdd
    selected_bcd_notn selected_bcd_slno bcd_tariff_rate
  let cess_spec_val := coerceCess cess_spec
  let cess_unit := pyOr (pyOr (dget rate_of_tariff_data "cess_uqc" (.str ""))
    (dget rate_of_effective_data "cess_uqc" (.str ""))) (.str "")
  match toQ av with
  | .error e => .error e
  | .ok avq =>
  match cascadeAmounts avq bcdres.1 aidc_rate cess_rate sws_rate igst_rate
      cc_rate cess_spec_val qty with
  | .error e => .error e
  | .ok am =>
    let rows : List Row := [
      { customsDuty := "Basic Customs Duty(BCD)", tariffRate := bcd_tariff_rate,
        specDuty := .str "", unit := .str "", notifSlno := bcdres.2,
        effectiveRate := bcdres.1, specDuty1 := .str "", unit1 := .str "",
        dutyAmount := roundTo 2 am.bcd },
      { customsDuty := "Customs AIDC", tariffRate := aidc_rate,
        specDuty := .str "", unit := .str "", notifSlno := .str "",
        effectiveRate := aidc_rate, specDuty1 := .str "", unit1 := .str "",
        dutyAmount := roundTo 2 am.aidc },
      { customsDuty := "Custom Health CESS(CHCESS)",
        tariffRate := dget data "chess_rate" (.num 0),
        specDuty := pyOr (dget data "chess_spc_amts" (.num 0)) (.str ""),
        unit := .str "", notifSlno := .str "",
        effectiveRate := dget data "chess_rate" (.num 0),
        specDuty1 := pyOr (dget data "chess_spc_amts" (.num 0)) (.str ""),
        unit1 := .str "", dutyAmount := 0 },
      { customsDuty := "CESS", tariffRate := cess_rate,
        specDuty := pyOr cess_spec (.str ""), unit := cess_unit,
        notifSlno := .str "", effectiveRate := cess_rate,
        specDuty1 := pyOr cess_spec (.str ""), unit1 := cess_unit,
        dutyAmount := roundTo 2 am.cess },
      { customsDuty := "Excise AIDC(EAIDC)",
        tariffRate := dget data "adc_rate" (.num 0),
        specDuty := pyOr (dget data "adc_spc_amts" (.num 0)) (.str ""),
        unit := .str "", notifSlno := .str "",
        effectiveRate := dget data "adc_rate" (.num 0),
        specDuty1 := pyOr (dget data "adc_spc_amts" (.num 0)) (.str ""),
        unit1 := .str "", dutyAmount := 0 },
      { customsDuty := "Social Welfare Surcharge(SWC)", tariffRate := sws_rate,
        specDuty := .str "", unit := .str "", notifSlno := .str "",
        effectiveRate := sws_rate, specDuty1 := .str "", unit1 := .str "",
        dutyAmount := roundTo 2 am.sws },
      { customsDuty := "IGST Levy", tariffRate := igst_rate,
        specDuty := .str "", unit := .str "",
        notifSlno := show_igst_notification_SL_no data,
        effectiveRate := igst_rate, specDuty1 := .str "", unit1 := .str "",
        dutyAmount := roundTo 2 am.igst },
      { customsDuty := "Compensation Cess(CC)", tariffRate := cc_rate,
        specDuty := .str "", unit := .str "", notifSlno := .str "",
        effectiveRate := cc_rate, specDuty1 := .str "", unit1 := .str "",
        dutyAmount := roundTo 2 am.cc } ]
    let total_duty := roundTo 2 ((rows.map Row.dutyAmount).sum)
    match calculate_total_tariff_rate data av with
    | .error e => .error e
    | .ok ttr =>
    match calculate_total_effective_tariff_rate data av (some bcdres.1) with
    | .error e => .error e
    | .ok ter =>
      .ok { cth := cth_code, country := country, assessableValue := av,
            quantity := qty, rows := rows,
            totalRow := { customsDuty := "Total Duty", tariffRate := .num ttr,
                          specDuty := .str "", unit := .str "",
                          notifSlno := .str "", effectiveRate := .num ter,
                          specDuty1 := .str "", unit1 := .str "",
                          dutyAmount := total_duty } }

/-- Projection: the 8 duty amounts of a successful engine run. -/
def rowAmounts (r : Except Unit DutyResult) : Option (List ℚ) :=
  match r with
  | .ok res => some (res.rows.map Row.dutyAmount)
  | .error _ => Option.none

/-- Projection: the totals row duty amount of a successful engine run. -/
def totalAmount (r : Except Unit DutyResult) : Option ℚ :=
  match r with
  | .ok res => some res.totalRow.dutyAmount
  | .error _ => Option.none

/-- Projection: the CESS row (index 3) duty amount of a successful run. -/
def cessRowAmount (r : Except Unit DutyResult) : Option ℚ :=
  match r with
  | .ok res => (res.rows[3]?).map Row.dutyAmount
  | .error _ => Option.none

/-- Python `int(float(v))`: truncation toward zero. -/
def qTrunc (q : ℚ) : ℤ := if 0 ≤ q then q.floor else q.ceil

/-- Lines 50-59: the request-layer validator for assessable_value and
quantity; empty, missing, or unparsable input becomes the field's
default (100000 for assessable_value, 100 for quantity). -/
def empty_string_to_default (is_assessable_value : Bool) (v : PyVal) : ℤ :=
  let dflt : ℤ := if is_assessable_value then 100000 else 100
  match v with
  | .none => dflt
  | .str s =>
      if s = "" then dflt
      else match parseFloat s with
           | some q => qTrunc q
           | Option.none => dflt
  | .num q => qTrunc q

/-- The matching test of the resolve_country scan (lines 92-93), as a
total predicate (the split into code and name on the first comma,
compared together with the whole raw entry). -/
def entryMatches (normalized entry : String) : Bool :=
  let parts := splitOnChar ',' entry.data
  let code := pyStrip ⟨parts.headD []⟩
  let nm := pyStrip ⟨joinSep ',' parts.tail⟩
  normalized == code || normalized == nm || normalized == entry

/-- Line 92: `code, name = map(str.strip, country.split(",", 1))` —
unpacking raises ValueError when the entry has no comma. -/
def splitCodeName (entry : String) : Except Unit (String × String) :=
  match splitOnChar ',' entry.data with
  | [_] => .error ()
  | x :: rest => .ok (pyStrip ⟨x⟩, pyStrip ⟨joinSep ',' rest⟩)
  | [] => .error ()

/-- The scan loop of resolve_country (lines 91-94): first matching entry,
raising on a comma-less entry reached before a match. -/
def resolveLoop (normalized : String) : List String → Except Unit (Option String)
  | [] => .ok Option.none
  | c :: rest =>
      match splitCodeName c with
      | .error e => .error e
      | .ok (code, nm) =>
          if normalized == code || normalized == nm || normalized == c then
            .ok (some c)
          else resolveLoop normalized rest

/-- The eight rate fields read by the aggregate rate functions. -/
def aggRateKeys : List String :=
  ["bcd_rate", "aidc_rate", "cess_rate", "chess_rate", "adc_rate",
   "scd_rate", "igst_rate", "gstcess_rate"]

/-- A sample fully-populated numeric rate payload, for instantiations. -/
def sampleRates : Dict :=
  [("bcd_rate", .num 5), ("aidc_rate", .num 1), ("cess_rate", .num 2),
   ("chess_rate", .num 3), ("adc_rate", .num 4), ("scd_rate", .num 10),
   ("igst_rate", .num 18), ("gstcess_rate", .num 6)]

/-- Lines 83-96: country resolution against the reference list. -/
def resolve_country (input_country : Option String)
    (country_list : List String) : Except Unit String :=
  let dflt := "CN,CHINA"
  match input_country with
  | Option.none => .ok dflt
  | some s =>
      if s = "" then .ok dflt
      else
        let normalized := pyUpper (pyStrip s)
        match resolveLoop normalized country_list with
        | .error e => .error e
        | .ok (some c) => .ok c
        | .ok Option.none => .ok dflt

/-! ## Helper lemmas (shared across the development) -/

/-- Python-or defaulting of a numeric assessable value yields a number. -/
theorem defaultAV_num (q : ℚ) : ∃ r : ℚ, defaultAV (.num q) = .num r := by
  unfold defaultAV
  split
  · exact ⟨q, rfl⟩
  · exact ⟨100000, rfl⟩

/-- Python-or defaulting of a numeric quantity yields a number. -/
theorem defaultQty_num (q : ℚ) : ∃ r : ℚ, defaultQty (.num q) = .num r := by
  unfold defaultQty
  split
  · exact ⟨q, rfl⟩
  · exact ⟨1, rfl⟩

/-- With a numeric fallback rate, the notification override always
resolves to a numeric effective rate. -/
theorem bcd_fst_num (table : List Dict) (notn slno : Option String) (rb : ℚ) :
    ∃ r : ℚ, (calculate_bcd_rate_with_notification table notn slno (.num rb)).1 = .num r := by
  unfold calculate_bcd_rate_with_notification
  cases notn with
  | none => exact ⟨rb, rfl⟩
  | some n =>
    by_cases hn : n = ""
    · simp only [hn, if_pos]
      exact ⟨rb, rfl⟩
    · simp only [if_neg hn]
      cases hfind : table.find? (bcdMatch n slno) with
      | none => simp only [hfind]; exact ⟨rb, rfl⟩
      | some item =>
        simp only [hfind]
        cases hrta : dgetOpt item "rta" with
        | num x => exact ⟨x, by simp [hrta, PyVal.isNum]⟩
        | str s => exact ⟨rb, by simp [hrta, PyVal.isNum]⟩
        | none => exact ⟨rb, by simp [hrta, PyVal.isNum]⟩

/-- The cascade succeeds on numeric rates, a numeric assessable value and
a numeric quantity, whatever the coerced specific cess amount is. -/
theorem cascade_num_ok (av csv qv rb ra rc rs ri rg : ℚ) :
    ∃ a : Amounts, cascadeAmounts av (.num rb) (.num ra) (.num rc) (.num rs)
      (.num ri) (.num rg) csv (.num qv) = .ok a := by
  unfold cascadeAmounts
  by_cases hc : csv ≠ 0
  · simp only [qMulDiv100, qMulPy, if_pos hc]
    exact ⟨_, rfl⟩
  · simp only [qMulDiv100, qMulPy, if_neg hc]
    exact ⟨_, rfl⟩

/-- The aggregate rate function succeeds on numeric rate fields. -/
theorem agg_num_ok (d : Dict) (avq ro ra rc rch rad rs ri rg : ℚ)
    (h2 : dget d "aidc_rate" (.num 0) = .num ra)
    (h3 : dget d "cess_rate" (.num 0) = .num rc)
    (h4 : dget d "chess_rate" (.num 0) = .num rch)
    (h5 : dget d "adc_rate" (.num 0) = .num rad)
    (h6 : dget d "scd_rate" (.num 0) = .num rs)
    (h7 : dget d "igst_rate" (.num 0) = .num ri)
    (h8 : dget d "gstcess_rate" (.num 0) = .num rg) :
    ∃ x, calculate_total_effective_tariff_rate d (.num avq) (some (.num ro)) = .ok x := by
  simp only [calculate_total_effective_tariff_rate, h2, h3, h4, h5, h6, h7, h8,
    toQ, qMulDiv100]
  exact ⟨_, rfl⟩

/-- On a reference list whose entries all contain a comma, the country
scan is the first-match search with the split-based test. -/
theorem resolveLoop_ok (nm : String) (l : List String)
    (hc : ∀ entry ∈ l, 2 ≤ (splitOnChar ',' entry.data).length) :
    resolveLoop nm l = .ok (l.find? (entryMatches nm)) := by
  induction l with
  | nil => rfl
  | cons c rest ih =>
    have hcc := hc c (List.mem_cons_self c rest)
    unfold resolveLoop splitCodeName
    cases hsp : splitOnChar ',' c.data with
    | nil => rw [hsp] at hcc; simp at hcc
    | cons x rest2 =>
      cases rest2 with
      | nil => rw [hsp] at hcc; simp at hcc
      | cons y rest3 =>
        have hent : entryMatches nm c =
            (nm == pyStrip ⟨x⟩ || nm == pyStrip ⟨joinSep ',' (y :: rest3)⟩ || nm == c) := by
          unfold entryMatches
          rw [hsp]
          rfl
        cases hb : (nm == pyStrip ⟨x⟩ || nm == pyStrip ⟨joinSep ',' (y :: rest3)⟩ || nm == c) with
        | true =>
          simp [List.find?, hent, hb]
        | false =>
          simp only [List.find?, hent, hb]
          simp only [Bool.false_eq_true, if_false]
          exact ih (fun a ha => hc a (List.mem_cons_of_mem c ha))

/-! ## Claim theorems -/

/-- C1: in the duty cascade of build_json_for_calculated_values (embedded
as cascadeAmounts, the function it calls for lines 252-258), whenever the
relevant rate fields are numeric and the cascade succeeds, the amounts
satisfy, before any rounding: BCD = V * bcd_effective_rate / 100,
AIDC = BCD * aidc_rate / 100 (on BCD, never on V), SWS =
(BCD + AIDC + CESS) * scd_rate / 100, IGST = (V + BCD + AIDC + CESS +
SWS) * igst_rate / 100 and CC = V * gstcess_rate / 100, each component
defined from the previously computed ones in that dependency order. -/
theorem c1_duty_cascade_formulas (av csv : ℚ) (qty cess_rate : PyVal)
    (rb ra rs ri rg : ℚ) (a : Amounts)
    (h : cascadeAmounts av (.num rb) (.num ra) cess_rate (.num rs) (.num ri)
      (.num rg) csv qty = .ok a) :
    a.bcd = av * rb / 100 ∧
    a.aidc = a.bcd * ra / 100 ∧
    a.sws = (a.bcd + a.aidc + a.cess) * rs / 100 ∧
    a.igst = (av + a.bcd + a.aidc + a.cess + a.sws) * ri / 100 ∧
    a.cc = av * rg / 100 := by
  unfold cascadeAmounts at h
  simp only [qMulDiv100] at h
  split at h
  · exact absurd h (by simp)
  · cases h
    exact ⟨rfl, rfl, rfl, rfl, rfl⟩

/-- C1 witness: the cascade at V = 100, BCD rate 10, SWS rate 10 and the
other rates 0 produces the amounts of the formulas. -/
theorem c1_duty_cascade_formulas_witness :
    (⟨10, 0, 0, 1, 0, 0⟩ : Amounts).bcd = 100 * 10 / 100 ∧
    (⟨10, 0, 0, 1, 0, 0⟩ : Amounts).aidc = (⟨10, 0, 0, 1, 0, 0⟩ : Amounts).bcd * 0 / 100 ∧
    (⟨10, 0, 0, 1, 0, 0⟩ : Amounts).sws =
      ((⟨10, 0, 0, 1, 0, 0⟩ : Amounts).bcd + (⟨10, 0, 0, 1, 0, 0⟩ : Amounts).aidc
        + (⟨10, 0, 0, 1, 0, 0⟩ : Amounts).cess) * 10 / 100 ∧
    (⟨10, 0, 0, 1, 0, 0⟩ : Amounts).igst =
      (100 + (⟨10, 0, 0, 1, 0, 0⟩ : Amounts).bcd + (⟨10, 0, 0, 1, 0, 0⟩ : Amounts).aidc
        + (⟨10, 0, 0, 1, 0, 0⟩ : Amounts).cess + (⟨10, 0, 0, 1, 0, 0⟩ : Amounts).sws) * 0 / 100 ∧
    (⟨10, 0, 0, 1, 0, 0⟩ : Amounts).cc = 100 * 0 / 100 :=
  c1_duty_cascade_formulas 100 0 (.num 1) (.num 0) 10 0 10 0 0
    ⟨10, 0, 0, 1, 0, 0⟩ (by decide)

/-- C2 counterexample: with cess_spc_amts = -1 (parsed value -1, which is
not greater than 0), cess_rate = 10, assessable value 100 and quantity 2,
the claim predicts CESS = 100 * 10 / 100 = 10, but the code takes the
specific-amount branch (Python truthiness, nonzero) and produces -2. -/
theorem c2_counterexample :
    cessRowAmount (build_json_for_calculated_values "c" (.num 100) (.num 2)
      Option.none Option.none Option.none
      [("cess_rate", .num 10), ("cess_spc_amts", .num (-1))] [] []) = some (-2) ∧
    (-2 : ℚ) ≠ roundTo 2 (100 * 10 / 100) := by
  constructor
  · decide
  · decide

/-- C2 (amended): in the line-item cascade, if the parsed cess_spc_amts
value is nonzero (Python-truthy, not merely positive) then CESS =
cess_spc_amts * quantity, ignoring cess_rate entirely; otherwise (parsed
value exactly 0) CESS = assessable_value * cess_rate / 100. -/
theorem c2_truthy_cess_branch (av csv q rb ra rc rs ri rg : ℚ) (a : Amounts)
    (h : cascadeAmounts av (.num rb) (.num ra) (.num rc) (.num rs) (.num ri)
      (.num rg) csv (.num q) = .ok a) :
    (csv ≠ 0 → a.cess = csv * q) ∧ (csv = 0 → a.cess = av * rc / 100) := by
  unfold cascadeAmounts at h
  simp only [qMulDiv100, qMulPy] at h
  by_cases hc : csv = 0
  · simp only [hc, ne_eq, not_true_eq_false, if_neg, ite_false] at h
    cases h
    exact ⟨fun hx => absurd hc hx, fun _ => rfl⟩
  · simp only [ne_eq, hc, not_false_eq_true, if_pos, ite_true] at h
    cases h
    exact ⟨fun _ => rfl, fun hx => absurd hx hc⟩

/-- C2 witness: at parsed specific amount 3 and quantity 2 the cess
amount is 3 * 2 = 6, regardless of the 10 percent cess rate. -/
theorem c2_truthy_cess_branch_witness :
    ((3 : ℚ) ≠ 0 → (⟨0, 0, 6, 0, 0, 0⟩ : Amounts).cess = 3 * 2) ∧
    ((3 : ℚ) = 0 → (⟨0, 0, 6, 0, 0, 0⟩ : Amounts).cess = 100 * 10 / 100) :=
  c2_truthy_cess_branch 100 3 2 0 0 10 0 0 0 ⟨0, 0, 6, 0, 0, 0⟩ (by decide)

/-- C3: on numeric rate fields, calculate_total_effective_tariff_rate
recomputes all eight components, folding CHCESS (chess_rate) and EAIDC
(adc_rate) into the SWS base and the final sum, divides the sum by the
assessable value, multiplies by 100 and rounds to 3 decimals; both
aggregate functions return 0 when the assessable value is 0, without
raising. -/
theorem c3_aggregate_rate (data : Dict) (av ro rb ra rc rch rad rs ri rg : ℚ)
    (hb : dget data "bcd_rate" (.num 0) = .num rb)
    (h2 : dget data "aidc_rate" (.num 0) = .num ra)
    (h3 : dget data "cess_rate" (.num 0) = .num rc)
    (h4 : dget data "chess_rate" (.num 0) = .num rch)
    (h5 : dget data "adc_rate" (.num 0) = .num rad)
    (h6 : dget data "scd_rate" (.num 0) = .num rs)
    (h7 : dget data "igst_rate" (.num 0) = .num ri)
    (h8 : dget data "gstcess_rate" (.num 0) = .num rg) :
    calculate_total_effective_tariff_rate data (.num av) (some (.num ro)) =
      .ok (roundTo 3 (if av ≠ 0 then
        (let b := av * ro / 100
         let a := b * ra / 100
         let c := av * rc / 100
         let ch := av * rch / 100
         let ea := av * rad / 100
         let sw := (b + a + c + ch + ea) * rs / 100
         let ig := (av + b + a + c + sw) * ri / 100
         let g := av * rg / 100
         (b + a + c + ch + ea + sw + ig + g) / av * 100) else 0)) ∧
    (av = 0 → calculate_total_effective_tariff_rate data (.num av) (some (.num ro)) = .ok 0) ∧
    (av = 0 → calculate_total_tariff_rate data (.num av) = .ok 0) := by
  have key : calculate_total_effective_tariff_rate data (.num av) (some (.num ro)) =
      .ok (roundTo 3 (if av ≠ 0 then
        (let b := av * ro / 100
         let a := b * ra / 100
         let c := av * rc / 100
         let ch := av * rch / 100
         let ea := av * rad / 100
         let sw := (b + a + c + ch + ea) * rs / 100
         let ig := (av + b + a + c + sw) * ri / 100
         let g := av * rg / 100
         (b + a + c + ch + ea + sw + ig + g) / av * 100) else 0)) := by
    simp only [calculate_total_effective_tariff_rate, h2, h3, h4, h5, h6, h7, h8,
      toQ, qMulDiv100]
  refine ⟨key, ?_, ?_⟩
  · intro h0
    subst h0
    rw [key]
    norm_num
    decide
  · intro h0
    subst h0
    simp only [calculate_total_tariff_rate, hb]
    simp only [calculate_total_effective_tariff_rate, h2, h3, h4, h5, h6, h7, h8,
      toQ, qMulDiv100]
    norm_num
    decide

/-- C3 witness: the aggregate formula instantiated on a fully-populated
numeric rate payload with assessable value 100 and override rate 7. -/
theorem c3_aggregate_rate_witness :
    calculate_total_effective_tariff_rate sampleRates (.num 100) (some (.num 7)) =
      .ok (roundTo 3 (if (100 : ℚ) ≠ 0 then
        (let b := (100 : ℚ) * 7 / 100
         let a := b * 1 / 100
         let c := (100 : ℚ) * 2 / 100
         let ch := (100 : ℚ) * 3 / 100
         let ea := (100 : ℚ) * 4 / 100
         let sw := (b + a + c + ch + ea) * 10 / 100
         let ig := ((100 : ℚ) + b + a + c + sw) * 18 / 100
         let g := (100 : ℚ) * 6 / 100
         (b + a + c + ch + ea + sw + ig + g) / 100 * 100) else 0)) :=
  (c3_aggregate_rate sampleRates 100 7 5 1 2 3 4 10 18 6
    rfl rfl rfl rfl rfl rfl rfl rfl).1

/-- C4: for every input on which the engine returns a result, the output
has 8 rows; the CHCESS row (index 2) and the EAIDC row (index 4) carry the
chess_rate and adc_rate percentages in both rate columns but have Duty
Amount fixed at 0.0; and the totals row's Duty Amount is the sum of the 8
rows' already-rounded Duty Amount values, rounded to 2 decimals. -/
theorem c4_chcess_eaidc_and_total (cth : String) (av qty : PyVal)
    (notn slno country : Option String) (t e : Dict) (table : List Dict)
    (res : DutyResult)
    (h : build_json_for_calculated_values cth av qty notn slno country t e table = .ok res) :
    res.rows.length = 8 ∧
    ∃ r2 r4, res.rows[2]? = some r2 ∧ res.rows[4]? = some r4 ∧
      r2.dutyAmount = 0 ∧
      r2.tariffRate = dget (dmerge t e) "chess_rate" (.num 0) ∧
      r2.effectiveRate = dget (dmerge t e) "chess_rate" (.num 0) ∧
      r4.dutyAmount = 0 ∧
      r4.tariffRate = dget (dmerge t e) "adc_rate" (.num 0) ∧
      r4.effectiveRate = dget (dmerge t e) "adc_rate" (.num 0) ∧
      res.totalRow.dutyAmount = roundTo 2 ((res.rows.map Row.dutyAmount).sum) := by
  simp only [build_json_for_calculated_values] at h
  split at h
  · exact absurd h (by simp)
  · split at h
    · exact absurd h (by simp)
    · split at h
      · exact absurd h (by simp)
      · split at h
        · exact absurd h (by simp)
        · cases h
          exact ⟨rfl, _, _, rfl, rfl, rfl, rfl, rfl, rfl, rfl, rfl, rfl⟩

/-- C4 witness: a successful run on a one-field payload, exhibiting the
zero CHCESS and EAIDC amounts and the totals-row sum. -/
theorem c4_chcess_eaidc_and_total_witness :
    ∃ res, build_json_for_calculated_values "c" (.num 100) (.num 1)
      Option.none Option.none Option.none [("bcd_rate", .num 10)] [] [] = .ok res ∧
      res.totalRow.dutyAmount = roundTo 2 ((res.rows.map Row.dutyAmount).sum) ∧
      (res.rows[2]?).map Row.dutyAmount = some 0 ∧
      (res.rows[4]?).map Row.dutyAmount = some 0 := by
  cases hB : build_json_for_calculated_values "c" (.num 100) (.num 1)
      Option.none Option.none Option.none [("bcd_rate", .num 10)] [] [] with
  | error err =>
    cases err
    exact absurd hB (by decide)
  | ok res =>
    obtain ⟨_, r2, r4, h2, h4, hz2, _, _, hz4, _, _, htot⟩ :=
      c4_chcess_eaidc_and_total "c" (.num 100) (.num 1)
        Option.none Option.none Option.none [("bcd_rate", .num 10)] [] [] res hB
    refine ⟨res, rfl, htot, ?_, ?_⟩
    · rw [h2]
      simp [hz2]
    · rw [h4]
      simp [hz4]

/-- C5: calculate_bcd_rate_with_notification returns the fallback rate
with an empty label when no notification number is selected or when no
table entry matches; otherwise it takes the first entry whose notn equals
the selection and whose slno matches the selected serial (or any slno
when the selected serial is absent), a numeric rta becomes the effective
rate, and the label is notn-slno when the entry has a serial, else the
entry's notn; in particular the table with the single entry
notn 005/2017, slno 1, rta 5 and fallback 10 yields (5, 005/2017-1) for
the matching selection and (10, empty) for a non-matching one. -/
theorem c5_notification_override :
    (∀ (table : List Dict) (slno : Option String) (fb : PyVal),
        calculate_bcd_rate_with_notification table Option.none slno fb = (fb, .str "")) ∧
    (∀ (table : List Dict) (slno : Option String) (fb : PyVal),
        calculate_bcd_rate_with_notification table (some "") slno fb = (fb, .str "")) ∧
    (∀ (table : List Dict) (n : String) (slno : Option String) (fb : PyVal) (item : Dict),
        n ≠ "" → table.find? (bcdMatch n slno) = some item →
        calculate_bcd_rate_with_notification table (some n) slno fb =
          (if (dgetOpt item "rta").isNum then dgetOpt item "rta" else fb,
           if pyTruthy (dgetOpt item "slno") then
             PyVal.str (pyStr (dgetOpt item "notn") ++ "-" ++ pyStr (dgetOpt item "slno"))
           else dgetOpt item "notn")) ∧
    (∀ (table : List Dict) (n : String) (slno : Option String) (fb : PyVal),
        n ≠ "" → table.find? (bcdMatch n slno) = Option.none →
        calculate_bcd_rate_with_notification table (some n) slno fb = (fb, .str "")) ∧
    calculate_bcd_rate_with_notification
      [[("notn", .str "005/2017"), ("slno", .str "1"), ("rta", .num 5)]]
      (some "005/2017") (some "1") (.num 10) = (.num 5, .str "005/2017-1") ∧
    calculate_bcd_rate_with_notification
      [[("notn", .str "005/2017"), ("slno", .str "1"), ("rta", .num 5)]]
      (some "006/2017") (some "1") (.num 10) = (.num 10, .str "") := by
  refine ⟨fun _ _ _ => rfl, fun _ _ _ => rfl, ?_, ?_, by decide, by decide⟩
  · intro table n slno fb item hn hfind
    unfold calculate_bcd_rate_with_notification
    simp only [if_neg hn, hfind]
  · intro table n slno fb hn hfind
    unfold calculate_bcd_rate_with_notification
    simp only [if_neg hn, hfind]

/-- C5 witness: the first-match clause applied to a concrete table with a
fallback of 7. -/
theorem c5_notification_override_witness :
    calculate_bcd_rate_with_notification
      [[("notn", .str "005/2017"), ("slno", .str "1"), ("rta", .num 5)]]
      (some "005/2017") (some "1") (.num 7) =
      (if (dgetOpt [("notn", PyVal.str "005/2017"), ("slno", PyVal.str "1"),
            ("rta", PyVal.num 5)] "rta").isNum then
         dgetOpt [("notn", PyVal.str "005/2017"), ("slno", PyVal.str "1"),
            ("rta", PyVal.num 5)] "rta"
       else .num 7,
       if pyTruthy (dgetOpt [("notn", PyVal.str "005/2017"), ("slno", PyVal.str "1"),
            ("rta", PyVal.num 5)] "slno") then
         PyVal.str (pyStr (dgetOpt [("notn", PyVal.str "005/2017"), ("slno", PyVal.str "1"),
            ("rta", PyVal.num 5)] "notn") ++ "-" ++
           pyStr (dgetOpt [("notn", PyVal.str "005/2017"), ("slno", PyVal.str "1"),
            ("rta", PyVal.num 5)] "slno"))
       else dgetOpt [("notn", PyVal.str "005/2017"), ("slno", PyVal.str "1"),
            ("rta", PyVal.num 5)] "notn") :=
  c5_notification_override.2.2.1
    [[("notn", .str "005/2017"), ("slno", .str "1"), ("rta", .num 5)]]
    "005/2017" (some "1") (.num 7)
    [("notn", .str "005/2017"), ("slno", .str "1"), ("rta", .num 5)]
    (by decide) (by decide)

/-- C6: the end-to-end scenario with assessable value 100000, quantity
100, rates bcd 10, aidc 0, cess 0, scd 10, igst 18, gstcess 0 and no
notification override produces row amounts BCD 10000, AIDC 0, CHCESS 0,
CESS 0, EAIDC 0, SWS 1000, IGST 19980, CC 0 (in the source's row order)
and a totals-row Duty Amount of 30980. -/
theorem c6_end_to_end_scenario :
    rowAmounts (build_json_for_calculated_values "10019910" (.num 100000) (.num 100)
      Option.none Option.none Option.none
      [("bcd_rate", .num 10), ("aidc_rate", .num 0), ("cess_rate", .num 0),
       ("scd_rate", .num 10), ("igst_rate", .num 18), ("gstcess_rate", .num 0)]
      [] []) = some [10000, 0, 0, 0, 0, 1000, 19980, 0] ∧
    totalAmount (build_json_for_calculated_values "10019910" (.num 100000) (.num 100)
      Option.none Option.none Option.none
      [("bcd_rate", .num 10), ("aidc_rate", .num 0), ("cess_rate", .num 0),
       ("scd_rate", .num 10), ("igst_rate", .num 18), ("gstcess_rate", .num 0)]
      [] []) = some 30980 := by
  constructor
  · decide
  · decide

/-- C7 counterexample: the engine is not total over arbitrary payload
shapes — a string-valued bcd_rate makes build_json_for_calculated_values
raise (Python: the string product of line 252 fails on the division),
contradicting the claim that every payload shape yields a well-formed
result. -/
theorem c7_counterexample :
    build_json_for_calculated_values "c" (.num 100000) (.num 1) Option.none
      Option.none Option.none [("bcd_rate", .str "x")] [] [] = .error () := by
  decide

/-- C7 (amended): the engine never raises when the eight percentage
rate fields of the merged payload are numeric (missing fields default to
0), with the quantity and assessable value numeric, whatever the
cess_spc_amts value is; the numeric coercion of cess_spc_amts substitutes
0 for missing or non-numeric input rather than raising.  A non-numeric
value in a percentage rate field, however, raises (see the
counterexample). -/
theorem c7_total_on_numeric_rates (t e : Dict) (table : List Dict) (cth : String)
    (country notn slno : Option String) (av q : ℚ)
    (rb ra rc rch rad rs ri rg : ℚ)
    (h1 : dget (dmerge t e) "bcd_rate" (.num 0) = .num rb)
    (h2 : dget (dmerge t e) "aidc_rate" (.num 0) = .num ra)
    (h3 : dget (dmerge t e) "cess_rate" (.num 0) = .num rc)
    (h4 : dget (dmerge t e) "chess_rate" (.num 0) = .num rch)
    (h5 : dget (dmerge t e) "adc_rate" (.num 0) = .num rad)
    (h6 : dget (dmerge t e) "scd_rate" (.num 0) = .num rs)
    (h7 : dget (dmerge t e) "igst_rate" (.num 0) = .num ri)
    (h8 : dget (dmerge t e) "gstcess_rate" (.num 0) = .num rg) :
    (∃ res, build_json_for_calculated_values cth (.num av) (.num q) notn slno
      country t e table = .ok res) ∧
    coerceCess PyVal.none = 0 ∧
    coerceCess (.str "abc") = 0 ∧
    (∀ s, parseFloat s = Option.none → coerceCess (.str s) = 0) := by
  refine ⟨?_, rfl, by decide, ?_⟩
  · obtain ⟨av2, hav⟩ := defaultAV_num av
    obtain ⟨q2, hq⟩ := defaultQty_num q
    obtain ⟨reff, hre⟩ := bcd_fst_num table notn slno rb
    obtain ⟨am, ham⟩ := cascade_num_ok av2
      (coerceCess (dget (dmerge t e) "cess_spc_amts" (.num 0))) q2 reff ra rc rs ri rg
    obtain ⟨x1, hx1⟩ := agg_num_ok (dmerge t e) av2 rb ra rc rch rad rs ri rg
      h2 h3 h4 h5 h6 h7 h8
    obtain ⟨x2, hx2⟩ := agg_num_ok (dmerge t e) av2 reff ra rc rch rad rs ri rg
      h2 h3 h4 h5 h6 h7 h8
    simp only [build_json_for_calculated_values, calculate_total_tariff_rate,
      h1, h2, h3, h4, h5, h6, h7, h8, hav, hq, toQ, hre, ham, hx1, hx2]
    exact ⟨_, rfl⟩
  · intro s hs
    unfold coerceCess
    by_cases he : s = ""
    · simp [he, pyTruthy]
    · simp [pyTruthy, he, hs]

/-- C7 witness: the engine succeeds on empty payloads (all rates default
to the numeric 0), and the defensive coercion facts hold. -/
theorem c7_total_on_numeric_rates_witness :
    (∃ res, build_json_for_calculated_values "c" (.num 100) (.num 2)
      Option.none Option.none Option.none [] [] [] = .ok res) ∧
    coerceCess PyVal.none = 0 ∧
    coerceCess (.str "abc") = 0 ∧
    (∀ s, parseFloat s = Option.none → coerceCess (.str s) = 0) :=
  c7_total_on_numeric_rates [] [] [] "c" Option.none Option.none Option.none
    100 2 0 0 0 0 0 0 0 0 rfl rfl rfl rfl rfl rfl rfl rfl

/-- C8 counterexample: resolve_country is not total over arbitrary
reference lists — an entry without a comma makes the tuple unpacking of
line 92 raise ValueError when the scan reaches it, contradicting the
claim that it never fails for every reference list. -/
theorem c8_counterexample :
    resolve_country (some "X") ["CHINA"] = .error () := by
  decide

/-- C8 (amended): resolve_country returns the fixed default CN,CHINA on
empty or missing input without looking at the list; and provided every
reference entry contains a comma it never fails, returning the first
entry whose code, name or whole entry equals the trimmed upper-cased
input, or the default when no entry matches.  An entry without a comma
that is scanned before a match raises (see the counterexample). -/
theorem c8_country_resolution :
    (∀ l, resolve_country Option.none l = .ok "CN,CHINA") ∧
    (∀ l, resolve_country (some "") l = .ok "CN,CHINA") ∧
    (∀ (s : String) (l : List String), s ≠ "" →
        (∀ entry ∈ l, 2 ≤ (splitOnChar ',' entry.data).length) →
        resolve_country (some s) l =
          .ok ((l.find? (entryMatches (pyUpper (pyStrip s)))).getD "CN,CHINA")) := by
  refine ⟨fun _ => rfl, fun _ => rfl, ?_⟩
  intro s l hs hc
  simp only [resolve_country, if_neg hs, resolveLoop_ok _ _ hc]
  cases hf : l.find? (entryMatches (pyUpper (pyStrip s))) with
  | none => simp
  | some c => simp

/-- C8 witness: the entry CN,CHINA resolves a padded lower-case code. -/
theorem c8_country_resolution_witness :
    resolve_country (some " cn ") ["CN,CHINA"] = .ok "CN,CHINA" :=
  (c8_country_resolution.2.2 " cn " ["CN,CHINA"] (by decide) (by decide)).trans
    (by decide)

/-- C9 counterexample: a negative assessable value passes the engine's
Python-or defaulting unchanged (negative numbers are truthy), so the
defaulted value is not positive, contradicting the claim that the
defaulted values are always positive for every input. -/
theorem c9_counterexample :
    defaultAV (.num (-5)) = .num (-5) ∧ ¬ ((0 : ℚ) < -5) := by
  constructor
  · decide
  · decide

/-- C9 (amended): after the engine's defaulting, assessable_value and
quantity are nonzero, and positive whenever the incoming numeric value is
nonnegative; falsy inputs (missing, empty, zero) default to 100000 and 1
inside the engine, while the request-layer validator defaults missing,
empty or unparsable assessable_value to 100000 and quantity to 100. -/
theorem c9_defaulting :
    (∀ q : ℚ, ∃ r : ℚ, defaultAV (.num q) = .num r ∧ r ≠ 0 ∧ (0 ≤ q → 0 < r)) ∧
    (∀ q : ℚ, ∃ r : ℚ, defaultQty (.num q) = .num r ∧ r ≠ 0 ∧ (0 ≤ q → 0 < r)) ∧
    defaultAV PyVal.none = .num 100000 ∧
    defaultAV (.str "") = .num 100000 ∧
    defaultQty PyVal.none = .num 1 ∧
    defaultQty (.str "") = .num 1 ∧
    empty_string_to_default true PyVal.none = 100000 ∧
    empty_string_to_default false PyVal.none = 100 ∧
    empty_string_to_default false (.str "") = 100 ∧
    empty_string_to_default false (.str "abc") = 100 ∧
    empty_string_to_default true (.str "abc") = 100000 := by
  refine ⟨?_, ?_, rfl, rfl, rfl, rfl, rfl, rfl, by decide, by decide, by decide⟩
  · intro q
    by_cases hq : q = 0
    · refine ⟨100000, ?_, by norm_num, fun _ => by norm_num⟩
      simp [defaultAV, pyTruthy, hq]
    · refine ⟨q, ?_, hq, fun hle => lt_of_le_of_ne hle (Ne.symm hq)⟩
      simp [defaultAV, pyTruthy, hq]
  · intro q
    by_cases hq : q = 0
    · refine ⟨1, ?_, by norm_num, fun _ => by norm_num⟩
      simp [defaultQty, pyTruthy, hq]
    · refine ⟨q, ?_, hq, fun hle => lt_of_le_of_ne hle (Ne.symm hq)⟩
      simp [defaultQty, pyTruthy, hq]

/-- C9 witness: the defaulted assessable value at input 3 is nonzero and
positive. -/
theorem c9_defaulting_witness :
    ∃ r : ℚ, defaultAV (.num 3) = .num r ∧ r ≠ 0 ∧ 0 < r := by
  obtain ⟨r, h1, h2, h3⟩ := c9_defaulting.1 3
  exact ⟨r, h1, h2, h3 (by norm_num)⟩

/-- C10: both aggregate rate functions depend only on the eight
percentage rate fields — two payloads that agree on those fields (via
the defaulted lookups) give identical aggregate results, whatever their
cess_spc_amts, chess_spc_amts or adc_spc_amts values, and neither takes
quantity as an input — even though the line-item CESS amount does change
with cess_spc_amts and quantity, as the concrete pair of engine runs
shows (amounts 10 versus 14 on payloads agreeing on all eight rate
fields). -/
theorem c10_aggregate_independence :
    (∀ (d1 d2 : Dict) (av : PyVal) (ov : Option PyVal),
        (∀ k ∈ aggRateKeys, dget d1 k (.num 0) = dget d2 k (.num 0)) →
        calculate_total_effective_tariff_rate d1 av ov =
          calculate_total_effective_tariff_rate d2 av ov ∧
        calculate_total_tariff_rate d1 av = calculate_total_tariff_rate d2 av) ∧
    (∀ k ∈ aggRateKeys,
        dget [("cess_rate", PyVal.num 10)] k (.num 0) =
          dget [("cess_rate", PyVal.num 10), ("cess_spc_amts", PyVal.num 7)] k (.num 0)) ∧
    cessRowAmount (build_json_for_calculated_values "c" (.num 100) (.num 2)
      Option.none Option.none Option.none [("cess_rate", .num 10)] [] []) = some 10 ∧
    cessRowAmount (build_json_for_calculated_values "c" (.num 100) (.num 2)
      Option.none Option.none Option.none
      [("cess_rate", .num 10), ("cess_spc_amts", .num 7)] [] []) = some 14 := by
  refine ⟨?_, by decide, by decide, by decide⟩
  intro d1 d2 av ov h
  have e1 := h "bcd_rate" (by simp [aggRateKeys])
  have e2 := h "aidc_rate" (by simp [aggRateKeys])
  have e3 := h "cess_rate" (by simp [aggRateKeys])
  have e4 := h "chess_rate" (by simp [aggRateKeys])
  have e5 := h "adc_rate" (by simp [aggRateKeys])
  have e6 := h "scd_rate" (by simp [aggRateKeys])
  have e7 := h "igst_rate" (by simp [aggRateKeys])
  have e8 := h "gstcess_rate" (by simp [aggRateKeys])
  constructor
  · simp only [calculate_total_effective_tariff_rate, e1, e2, e3, e4, e5, e6, e7, e8]
  · simp only [calculate_total_tariff_rate, calculate_total_effective_tariff_rate,
      e1, e2, e3, e4, e5, e6, e7, e8]

/-- C10 witness: the aggregate functions agree on the two payloads of the
contrast pair. -/
theorem c10_aggregate_independence_witness :
    calculate_total_effective_tariff_rate [("cess_rate", PyVal.num 10)]
      (.num 100) Option.none =
      calculate_total_effective_tariff_rate
        [("cess_rate", PyVal.num 10), ("cess_spc_amts", PyVal.num 7)]
        (.num 100) Option.none ∧
    calculate_total_tariff_rate [("cess_rate", PyVal.num 10)] (.num 100) =
      calculate_total_tariff_rate
        [("cess_rate", PyVal.num 10), ("cess_spc_amts", PyVal.num 7)] (.num 100) :=
  c10_aggregate_independence.1 [("cess_rate", PyVal.num 10)]
    [("cess_rate", PyVal.num 10), ("cess_spc_amts", PyVal.num 7)]
    (.num 100) Option.none (by decide)

end IcegateDuty
